import Mathlib

/-!
Verification of the support-ticket subsystem of `bsi.py` (scholarship portal).

The embedding models the persistent (committed) database state touched by the
ticket routes.  Strings stay strings (the `status` and `role` columns are
`String` columns mutated by string comparisons, not enums), `datetime` values
are modelled as seconds since the Unix epoch (`Int`), and the WIB timezone
(GMT+7) conversion is a `+ 7*3600` shift followed by the standard civil-calendar
conversion — `created_at` is stored via `datetime.utcnow`, and the deployment
assumption implicit in `dt.astimezone(WIB)` is that the naive value denotes UTC.
Each HTTP handler becomes a pure function from its inputs and the relevant
table rows to the new committed rows plus its visible outcome.
-/

namespace BSI

/-- Rows of `users`, restricted to the columns the ticket routes read. -/
structure User where
  id : Nat
  role : String
  deriving DecidableEq, Repr

/-- Rows of `tickets` (model `Ticket` in bsi.py).  `created_at`/`completed_at`
are epoch seconds; nullable columns are `Option`. -/
structure Ticket where
  id : Nat
  user_id : Nat
  title : String
  description : String
  category : Option String
  status : String
  created_at : Option Int
  completed_at : Option Int
  admin_note : Option String
  assigned_admin_id : Option Nat
  deriving DecidableEq, Repr

/-- Rows of `ticket_messages` (model `TicketMessage` in bsi.py). -/
structure TicketMessage where
  id : Nat
  ticket_id : Nat
  sender_id : Nat
  message : String
  created_at : Int
  is_read_admin : Bool
  is_read_user : Bool
  deriving DecidableEq, Repr

/-- The ASCII whitespace stripped by Python's `str.strip()`
(`" \t\n\r\x0b\x0c"`; Unicode whitespace is outside this model). -/
def isPySpace (c : Char) : Bool :=
  c = ' ' || c = '\t' || c = '\n' || c = '\r' || c = '\x0b' || c = '\x0c'

/-- Python's `s.strip()`: drop leading and trailing whitespace. -/
def pyStrip (s : String) : String :=
  ⟨(((s.data.dropWhile isPySpace).reverse).dropWhile isPySpace).reverse⟩

/-- Python's `s[:n]` on a string: the first `n` code points. -/
def pyTake (s : String) (n : Nat) : String := ⟨s.data.take n⟩

/-- The character for a decimal digit, as in Python's `%d` rendering. -/
def digitChar (d : Nat) : Char := Char.ofNat (48 + d)

/-- Fuel-driven decimal rendering of a natural number (most significant digit
first); `fuel ≥ number of digits` makes it total. -/
def natToDecAux : Nat → Nat → List Char
  | 0, _ => []
  | fuel + 1, n =>
    if n < 10 then [digitChar n]
    else natToDecAux fuel (n / 10) ++ [digitChar (n % 10)]

/-- Decimal rendering of a natural number, as Python's `"%d" % n`. -/
def natToDec (n : Nat) : String := ⟨natToDecAux (n + 1) n⟩

/-- Python's `"%0*d"` for nonnegative values: zero-pad the decimal rendering
to a minimum width `w` (never truncating). -/
def padNum (w : Nat) (n : Nat) : String :=
  ⟨List.replicate (w - (natToDec n).length) '0' ++ (natToDec n).data⟩

/-- Civil date (year, month, day) of a day count relative to 1970-01-01
(proleptic Gregorian calendar, Euclidean division). -/
def civilFromDays (z0 : Int) : Int × Int × Int :=
  let z := z0 + 719468
  let era := z.fdiv 146097
  let doe := z - era * 146097
  let yoe := (doe - doe.fdiv 1460 + doe.fdiv 36524 - doe.fdiv 146096).fdiv 365
  let y := yoe + era * 400
  let doy := doe - (365 * yoe + yoe.fdiv 4 - yoe.fdiv 100)
  let mp := (5 * doy + 2).fdiv 153
  let d := doy - (153 * mp + 2).fdiv 5 + 1
  let m := mp + (if mp < 10 then 3 else -9)
  (y + (if m ≤ 2 then 1 else 0), m, d)

/-- The civil date of a UTC epoch-seconds instant rendered in WIB (GMT+7):
`dt.astimezone(WIB)` in `format_ticket_number`. -/
def wibDate (epochSecs : Int) : Int × Int × Int :=
  civilFromDays ((epochSecs + 7 * 3600).fdiv 86400)

/-- Function `format_ticket_number` (bsi.py:336): `dt.strftime("%Y%m%d")` on the WIB
rendering of `created_at` (falling back to `now` when the column is NULL),
followed by `f"{ticket.id:03d}"`. -/
def format_ticket_number (t : Ticket) (nowEpoch : Int) : String :=
  let dt := t.created_at.getD nowEpoch
  let ymd := wibDate dt
  padNum 4 ymd.1.toNat ++ padNum 2 ymd.2.1.toNat ++ padNum 2 ymd.2.2.toNat ++
    padNum 3 t.id

/-- The expression `description.strip().split("\n")[0]` (bsi.py:3594): the stripped text up
to the first newline. -/
def firstLine (s : String) : String :=
  ⟨(pyStrip s).data.takeWhile (fun c => c ≠ '\n')⟩

/-- POST branch of `ticket_new` (bsi.py:3585).  Inputs are the stripped-at-use
form fields; the result is the new `tickets` table plus whether a ticket was
created.  The optional image attachment handling only touches the filesystem
and `attachment_path`, outside this model. -/
def ticket_new (uid : Nat) (rawCategory rawDescription : String) (now : Int)
    (tickets : List Ticket) (nextId : Nat) : List Ticket × Bool :=
  let category := pyStrip rawCategory
  let description := pyStrip rawDescription
  if description = "" then (tickets, false)
  else
    let short_title0 := firstLine description
    let short_title :=
      if short_title0.length > 120 then pyTake short_title0 120 ++ "..."
      else short_title0
    let t : Ticket :=
      { id := nextId
        user_id := uid
        title := short_title
        description := description
        category := if category = "" then none else some category
        status := "open"
        created_at := some now
        completed_at := none
        admin_note := none
        assigned_admin_id := none }
    (tickets ++ [t], true)

/-- Position of a status along the documented linear order
`open → in_progress → resolved → closed`. -/
def statusIndex (s : String) : Nat :=
  if s = "open" then 0
  else if s = "in_progress" then 1
  else if s = "resolved" then 2
  else if s = "closed" then 3
  else 4

/-- The four documented values of the `status` column. -/
def validStatus (s : String) : Prop :=
  s = "open" ∨ s = "in_progress" ∨ s = "resolved" ∨ s = "closed"

instance (s : String) : Decidable (validStatus s) := by
  unfold validStatus; infer_instance

/-- The status/`completed_at` update of one admin action
(bsi.py:3708-3722), after the closed-ticket guard has passed. -/
def applyAction (t : Ticket) (action : String) (now : Int) : Ticket :=
  if action = "accept" then
    if t.status = "open" then { t with status := "in_progress" } else t
  else if action = "complete" then
    if t.status = "in_progress" ∨ t.status = "resolved" then
      if t.status ≠ "resolved" ∧ t.completed_at = none then
        { t with completed_at := some now, status := "resolved" }
      else { t with status := "resolved" }
    else t
  else if action = "close" then
    if t.status ≠ "closed" then { t with status := "closed" } else t
  else t

/-- The running-log append of the admin note (bsi.py:3724-3732); `nowStr` is
`datetime.now(WIB).strftime("%d %b %Y, %H:%M WIB")` and `note` is already
stripped and non-empty when this runs. -/
def appendAdminNote (t : Ticket) (nowStr note : String) : Ticket :=
  if note ≠ "" then
    let pfx := "[" ++ nowStr ++ "] "
    let existing := pyStrip (t.admin_note.getD "")
    if existing ≠ "" then
      { t with admin_note := some (existing ++ "\n" ++ pfx ++ note) }
    else
      { t with admin_note := some (pfx ++ note) }
  else t

/-- POST branch of `admin_tickets` (bsi.py:3685-3736) for an existing ticket,
returning the committed ticket row and whether the update succeeded.  An empty
stripped note redirects before any change.  For a closed ticket the handler
redirects before any `commit`: the in-session auto-assignment of
`assigned_admin_id` (bsi.py:3700) is rolled back at request teardown, so the
committed row is unchanged. -/
def admin_tickets_post (adminId : Nat) (t : Ticket) (action rawNote : String)
    (nowStr : String) (now : Int) : Ticket × Bool :=
  let note := pyStrip rawNote
  if note = "" then (t, false)
  else
    let t1 :=
      if t.assigned_admin_id = none then { t with assigned_admin_id := some adminId }
      else t
    if t.status = "closed" then (t, false)
    else (appendAdminNote (applyAction t1 action now) nowStr note, true)

/-- Per-message read-flag update of `chat_messages` (bsi.py:4654-4665) for the
reader `user`. -/
def markRead (user : User) (m : TicketMessage) : TicketMessage :=
  if user.role = "admin" then
    if m.sender_id ≠ user.id ∧ m.is_read_admin = false then
      { m with is_read_admin := true }
    else m
  else
    if m.sender_id ≠ user.id ∧ m.is_read_user = false then
      { m with is_read_user := true }
    else m

/-- Stable insertion into a list ordered by `created_at` ascending. -/
def insertByTime (m : TicketMessage) : List TicketMessage → List TicketMessage
  | [] => [m]
  | x :: xs =>
    if m.created_at < x.created_at then m :: x :: xs else x :: insertByTime m xs

/-- The query order `order_by(TicketMessage.created_at.asc())`. -/
def orderByCreatedAt : List TicketMessage → List TicketMessage
  | [] => []
  | x :: xs => insertByTime x (orderByCreatedAt xs)

/-- Handler `chat_messages` (bsi.py:4644): returns the rows serialized to the reader
(ordered by `created_at`) and the committed `ticket_messages` table.  A user
who is neither an admin nor the ticket owner gets `jsonify([])` with no state
change. -/
def chat_messages (user : User) (ticket : Ticket)
    (table : List TicketMessage) : List TicketMessage × List TicketMessage :=
  if user.role ≠ "admin" ∧ ticket.user_id ≠ user.id then ([], table)
  else
    let table' :=
      table.map (fun m => if m.ticket_id = ticket.id then markRead user m else m)
    let msgs := orderByCreatedAt (table'.filter (fun m => m.ticket_id = ticket.id))
    (msgs, table')

/-- Handler `chat_send` (bsi.py:4680): returns the `success` flag and the committed
`ticket_messages` table. -/
def chat_send (user : User) (ticket : Ticket) (rawMsg : String) (now : Int)
    (table : List TicketMessage) (nextId : Nat) : Bool × List TicketMessage :=
  if user.role ≠ "admin" ∧ ticket.user_id ≠ user.id then (false, table)
  else
    let msg := pyStrip rawMsg
    if msg = "" then (false, table)
    else
      let m0 : TicketMessage :=
        { id := nextId
          ticket_id := ticket.id
          sender_id := user.id
          message := msg
          created_at := now
          is_read_admin := false
          is_read_user := false }
      let m :=
        if user.role = "admin" then { m0 with is_read_admin := true, is_read_user := false }
        else { m0 with is_read_admin := false, is_read_user := true }
      (true, table ++ [m])

/-- Sample ticket row used to instantiate witnesses. -/
def sampleTicket : Ticket :=
  { id := 7
    user_id := 42
    title := "t"
    description := "d"
    category := none
    status := "open"
    created_at := some 1705312800
    completed_at := none
    admin_note := none
    assigned_admin_id := none }

/-- Sample admin user used to instantiate witnesses. -/
def sampleAdmin : User := { id := 3, role := "admin" }

/-- Sample ticket message (sent by the ticket owner, unread on both sides)
used to instantiate witnesses. -/
def sampleMsg : TicketMessage :=
  { id := 1
    ticket_id := 7
    sender_id := 42
    message := "hi"
    created_at := 10
    is_read_admin := false
    is_read_user := false }

/-! ## Helper lemmas -/

theorem natToDecAux_len :
    ∀ fuel n k, n < fuel → 0 < k → n < 10 ^ k → (natToDecAux fuel n).length ≤ k := by
  intro fuel
  induction fuel with
  | zero => intro n k hn; omega
  | succ f ih =>
    intro n k hn hk hnk
    unfold natToDecAux
    split
    · simpa using hk
    · rename_i h10
      have h10' : 10 ≤ n := by omega
      have hk2 : 2 ≤ k := by
        by_contra h2
        have hk1 : k = 1 := by omega
        subst hk1
        simp [pow_one] at hnk
        omega
      have hpow : 10 ^ (k - 1) * 10 = 10 ^ k := by
        rw [← pow_succ]
        congr 1
        omega
      have hdiv : n / 10 < 10 ^ (k - 1) := by
        rw [Nat.div_lt_iff_lt_mul (by omega)]
        rw [hpow]
        exact hnk
      have hrec : (natToDecAux f (n / 10)).length ≤ k - 1 := by
        apply ih
        · have : n / 10 < n := Nat.div_lt_self (by omega) (by omega)
          omega
        · omega
        · exact hdiv
      simp only [List.length_append, List.length_cons, List.length_nil]
      omega

theorem natToDec_len {n k : Nat} (hk : 0 < k) (h : n < 10 ^ k) :
    (natToDec n).length ≤ k :=
  natToDecAux_len (n + 1) n k (Nat.lt_succ_self n) hk h

theorem padNum_length {w n : Nat} (h : (natToDec n).length ≤ w) :
    (padNum w n).length = w := by
  simp only [padNum, natToDec, String.length_mk, List.length_append,
    List.length_replicate] at *
  omega

theorem applyAction_frame (t : Ticket) (action : String) (now : Int) :
    (applyAction t action now).id = t.id ∧
    (applyAction t action now).user_id = t.user_id ∧
    (applyAction t action now).admin_note = t.admin_note ∧
    (applyAction t action now).assigned_admin_id = t.assigned_admin_id ∧
    (applyAction t action now).created_at = t.created_at := by
  unfold applyAction
  refine ⟨?_, ?_, ?_, ?_, ?_⟩ <;> (repeat' split) <;> rfl

theorem appendAdminNote_frame (t : Ticket) (ns note : String) :
    (appendAdminNote t ns note).status = t.status ∧
    (appendAdminNote t ns note).completed_at = t.completed_at ∧
    (appendAdminNote t ns note).assigned_admin_id = t.assigned_admin_id := by
  refine ⟨?_, ?_, ?_⟩ <;> simp only [appendAdminNote] <;> (repeat' split) <;> rfl

theorem appendAdminNote_note (t : Ticket) (ns note : String) (h : note ≠ "") :
    (appendAdminNote t ns note).admin_note =
      some (if pyStrip (t.admin_note.getD "") ≠ "" then
              pyStrip (t.admin_note.getD "") ++ "\n" ++ ("[" ++ ns ++ "] " ++ note)
            else "[" ++ ns ++ "] " ++ note) := by
  simp only [appendAdminNote, if_pos h]
  split <;> simp [String.append_assoc]

theorem admin_tickets_post_empty_note (adminId : Nat) (t : Ticket)
    (action rawNote nowStr : String) (now : Int) (h : pyStrip rawNote = "") :
    admin_tickets_post adminId t action rawNote nowStr now = (t, false) := by
  simp only [admin_tickets_post, if_pos h]

theorem admin_tickets_post_closed (adminId : Nat) (t : Ticket)
    (action rawNote nowStr : String) (now : Int) (h : t.status = "closed") :
    admin_tickets_post adminId t action rawNote nowStr now = (t, false) := by
  simp only [admin_tickets_post]
  split
  · rfl
  · simp [h]

theorem admin_tickets_post_success (adminId : Nat) (t : Ticket)
    (action rawNote nowStr : String) (now : Int)
    (hn : pyStrip rawNote ≠ "") (hc : t.status ≠ "closed") :
    admin_tickets_post adminId t action rawNote nowStr now =
      (appendAdminNote
        (applyAction
          (if t.assigned_admin_id = none then
            { t with assigned_admin_id := some adminId } else t)
          action now)
        nowStr (pyStrip rawNote), true) := by
  simp only [admin_tickets_post]
  rw [if_neg hn, if_neg hc]

theorem applyAction_status (t : Ticket) (action : String) (now : Int)
    (hv : validStatus t.status) :
    validStatus (applyAction t action now).status ∧
    statusIndex t.status ≤ statusIndex (applyAction t action now).status := by
  rcases hv with h | h | h | h <;>
    simp only [applyAction, h] <;>
    (repeat' split) <;>
    simp_all [validStatus, statusIndex]

theorem applyAction_accept (t : Ticket) (now : Int) :
    (applyAction t "accept" now).status = t.status ∨
    (t.status = "open" ∧ (applyAction t "accept" now).status = "in_progress") := by
  by_cases h : t.status = "open"
  · right
    refine ⟨h, ?_⟩
    simp [applyAction, h]
  · left
    simp [applyAction, h]

theorem applyAction_complete (t : Ticket) (now : Int) :
    (applyAction t "complete" now).status = t.status ∨
    (t.status = "in_progress" ∧
      (applyAction t "complete" now).status = "resolved") := by
  by_cases h1 : t.status = "in_progress"
  · right
    refine ⟨h1, ?_⟩
    by_cases h2 : t.completed_at = none <;> simp [applyAction, h1, h2]
  · by_cases h3 : t.status = "resolved"
    · left
      simp [applyAction, h3]
    · left
      simp [applyAction, h1, h3]

/-! ## Claim theorems -/

/-- Claim C1 (counterexample): the claim says admin actions move the status
one step at a time along `open → in_progress → resolved → closed`, but a
`close` action on a ticket that is still `open` jumps straight to `closed`
(three steps at once). -/
theorem C1_counterexample :
    (admin_tickets_post 3 sampleTicket "close" "note" "ts" 0).1.status = "closed" ∧
    sampleTicket.status = "open" ∧
    statusIndex (admin_tickets_post 3 sampleTicket "close" "note" "ts" 0).1.status ≠
      statusIndex sampleTicket.status + 1 := by
  refine ⟨by decide, by decide, by decide⟩

/-- Claim C1 (amended): the status column only ever holds one of the four
values `open`, `in_progress`, `resolved`, `closed`, and every admin ticket
action moves the status forward (never backward) along that linear order;
`accept` and `complete` advance one step, while `close` may jump directly to
`closed` from any earlier status. -/
theorem C1_status_forward (adminId : Nat) (t : Ticket)
    (action rawNote nowStr : String) (now : Int) (hv : validStatus t.status) :
    validStatus (admin_tickets_post adminId t action rawNote nowStr now).1.status ∧
    statusIndex t.status ≤
      statusIndex (admin_tickets_post adminId t action rawNote nowStr now).1.status ∧
    (action = "accept" →
      (admin_tickets_post adminId t action rawNote nowStr now).1.status =
        t.status ∨
      (t.status = "open" ∧
        (admin_tickets_post adminId t action rawNote nowStr now).1.status =
          "in_progress" ∧
        statusIndex
            (admin_tickets_post adminId t action rawNote nowStr now).1.status =
          statusIndex t.status + 1)) ∧
    (action = "complete" →
      (admin_tickets_post adminId t action rawNote nowStr now).1.status =
        t.status ∨
      (t.status = "in_progress" ∧
        (admin_tickets_post adminId t action rawNote nowStr now).1.status =
          "resolved" ∧
        statusIndex
            (admin_tickets_post adminId t action rawNote nowStr now).1.status =
          statusIndex t.status + 1)) := by
  by_cases hn : pyStrip rawNote = ""
  · rw [admin_tickets_post_empty_note adminId t action rawNote nowStr now hn]
    exact ⟨hv, Nat.le_refl _, fun _ => Or.inl rfl, fun _ => Or.inl rfl⟩
  by_cases hcl : t.status = "closed"
  · rw [admin_tickets_post_closed adminId t action rawNote nowStr now hcl]
    exact ⟨hv, Nat.le_refl _, fun _ => Or.inl rfl, fun _ => Or.inl rfl⟩
  rw [admin_tickets_post_success adminId t action rawNote nowStr now hn hcl]
  set t1 := if t.assigned_admin_id = none then
    { t with assigned_admin_id := some adminId } else t with ht1
  have hstat : t1.status = t.status := by rw [ht1]; split <;> rfl
  have happ :=
    (appendAdminNote_frame (applyAction t1 action now) nowStr (pyStrip rawNote)).1
  simp only [happ]
  have hres := applyAction_status t1 action now (by rw [hstat]; exact hv)
  rw [hstat] at hres
  refine ⟨hres.1, hres.2, ?_, ?_⟩
  · intro ha
    subst ha
    rcases applyAction_accept t1 now with h | h
    · left
      rw [h, hstat]
    · right
      rw [← hstat]
      refine ⟨h.1, h.2, ?_⟩
      rw [h.2, h.1]
      decide
  · intro ha
    subst ha
    rcases applyAction_complete t1 now with h | h
    · left
      rw [h, hstat]
    · right
      rw [← hstat]
      refine ⟨h.1, h.2, ?_⟩
      rw [h.2, h.1]
      decide

/-- Witness for C1: accepting the sample open ticket keeps the status among
the four values, does not move it backward, and the accept action either
leaves the status unchanged or advances it exactly one step from `open` to
`in_progress`. -/
theorem C1_witness :
    validStatus sampleTicket.status ∧
    validStatus (admin_tickets_post 3 sampleTicket "accept" "n" "ts" 0).1.status ∧
    statusIndex sampleTicket.status ≤
      statusIndex (admin_tickets_post 3 sampleTicket "accept" "n" "ts" 0).1.status ∧
    ((admin_tickets_post 3 sampleTicket "accept" "n" "ts" 0).1.status =
        sampleTicket.status ∨
      (sampleTicket.status = "open" ∧
        (admin_tickets_post 3 sampleTicket "accept" "n" "ts" 0).1.status =
          "in_progress" ∧
        statusIndex
            (admin_tickets_post 3 sampleTicket "accept" "n" "ts" 0).1.status =
          statusIndex sampleTicket.status + 1)) :=
  ⟨by decide, (C1_status_forward 3 sampleTicket "accept" "n" "ts" 0 (by decide)).1,
    (C1_status_forward 3 sampleTicket "accept" "n" "ts" 0 (by decide)).2.1,
    (C1_status_forward 3 sampleTicket "accept" "n" "ts" 0 (by decide)).2.2.1 rfl⟩

/-- Claim C2 (counterexample): the claim says every ticket number is 11
characters (8-character WIB date plus a 3-digit increment), but for a ticket
with id 1000 (created 2024-01-15 10:00 UTC = 17:00 WIB) the number is the
12-character `202401151000`: `f"{id:03d}"` zero-pads to a minimum of three
digits and never truncates. -/
theorem C2_counterexample :
    format_ticket_number { sampleTicket with id := 1000 } 0 = "202401151000" ∧
    (format_ticket_number { sampleTicket with id := 1000 } 0).length = 12 ∧
    ¬ (format_ticket_number { sampleTicket with id := 1000 } 0).length = 11 := by
  refine ⟨by decide, by decide, by decide⟩

/-- Claim C2 (amended): `format_ticket_number` renders the ticket's creation
instant in WIB (GMT+7) as a zero-padded `YYYYMMDD` prefix followed by the
ticket id zero-padded to a minimum of three digits; the result is exactly 11
characters whenever the id is at most 999 (for larger ids the increment keeps
all its digits and the number is longer). -/
theorem C2_format (t : Ticket) (s y m d nowEpoch : Int)
    (hc : t.created_at = some s) (hymd : wibDate s = (y, m, d))
    (hy : y ≤ 9999) (hm : m ≤ 99) (hd : d ≤ 99) (hid : t.id ≤ 999) :
    format_ticket_number t nowEpoch =
      padNum 4 y.toNat ++ padNum 2 m.toNat ++ padNum 2 d.toNat ++ padNum 3 t.id ∧
    (format_ticket_number t nowEpoch).length = 11 := by
  have heq : format_ticket_number t nowEpoch =
      padNum 4 y.toNat ++ padNum 2 m.toNat ++ padNum 2 d.toNat ++ padNum 3 t.id := by
    simp only [format_ticket_number, hc, Option.getD_some, hymd]
  refine ⟨heq, ?_⟩
  have e4 : (10 : Nat) ^ 4 = 10000 := by norm_num
  have e2 : (10 : Nat) ^ 2 = 100 := by norm_num
  have e3 : (10 : Nat) ^ 3 = 1000 := by norm_num
  have hy' : y.toNat ≤ 9999 := Int.toNat_le.2 (by exact_mod_cast hy)
  have hm' : m.toNat ≤ 99 := Int.toNat_le.2 (by exact_mod_cast hm)
  have hd' : d.toNat ≤ 99 := Int.toNat_le.2 (by exact_mod_cast hd)
  have l4 : (padNum 4 y.toNat).length = 4 :=
    padNum_length (natToDec_len (by norm_num) (by omega))
  have l2m : (padNum 2 m.toNat).length = 2 :=
    padNum_length (natToDec_len (by norm_num) (by omega))
  have l2d : (padNum 2 d.toNat).length = 2 :=
    padNum_length (natToDec_len (by norm_num) (by omega))
  have l3 : (padNum 3 t.id).length = 3 :=
    padNum_length (natToDec_len (by norm_num) (by omega))
  rw [heq, String.length_append, String.length_append, String.length_append,
    l4, l2m, l2d, l3]

/-- Witness for C2: the sample ticket (id 7, created 2024-01-15 10:00 UTC)
has an 11-character ticket number. -/
theorem C2_witness : (format_ticket_number sampleTicket 0).length = 11 :=
  (C2_format sampleTicket 1705312800 2024 1 15 0 rfl (by decide) (by decide)
    (by decide) (by decide) (by decide)).2

/-- Claim C3: admin notes are append-only.  Every successful admin action with
a non-empty stripped note leaves `admin_note` equal to the previous content
(stripped of surrounding whitespace) followed by a newline and the
timestamp-prefixed new note — or just the timestamped note when there was no
previous content — so the stripped previous content is always a prefix of the
new value. -/
theorem C3_admin_note_append (adminId : Nat) (t : Ticket)
    (action rawNote nowStr : String) (now : Int)
    (hn : pyStrip rawNote ≠ "") (hc : t.status ≠ "closed") :
    (admin_tickets_post adminId t action rawNote nowStr now).2 = true ∧
    (admin_tickets_post adminId t action rawNote nowStr now).1.admin_note =
      some (if pyStrip (t.admin_note.getD "") ≠ "" then
              pyStrip (t.admin_note.getD "") ++ "\n" ++
                ("[" ++ nowStr ++ "] " ++ pyStrip rawNote)
            else "[" ++ nowStr ++ "] " ++ pyStrip rawNote) ∧
    ∃ rest : String,
      (admin_tickets_post adminId t action rawNote nowStr now).1.admin_note =
        some (pyStrip (t.admin_note.getD "") ++ rest) := by
  rw [admin_tickets_post_success adminId t action rawNote nowStr now hn hc]
  set t1 := if t.assigned_admin_id = none then
    { t with assigned_admin_id := some adminId } else t with ht1
  have h1 : t1.admin_note = t.admin_note := by rw [ht1]; split <;> rfl
  have h2 : (applyAction t1 action now).admin_note = t.admin_note := by
    rw [(applyAction_frame t1 action now).2.2.1, h1]
  have h3 := appendAdminNote_note (applyAction t1 action now) nowStr
    (pyStrip rawNote) hn
  rw [h2] at h3
  refine ⟨rfl, h3, ?_⟩
  by_cases he : pyStrip (t.admin_note.getD "") = ""
  · refine ⟨"[" ++ nowStr ++ "] " ++ pyStrip rawNote, ?_⟩
    rw [h3, if_neg (by simpa using he), he]
    rfl
  · refine ⟨"\n" ++ ("[" ++ nowStr ++ "] " ++ pyStrip rawNote), ?_⟩
    rw [h3, if_pos he]
    rw [String.append_assoc]

/-- Witness for C3: accepting the sample ticket (no previous note) with note
`" hello "` records exactly the timestamped stripped note. -/
theorem C3_witness :
    (admin_tickets_post 3 sampleTicket "accept" " hello " "ts" 0).2 = true ∧
    (admin_tickets_post 3 sampleTicket "accept" " hello " "ts" 0).1.admin_note =
      some "[ts] hello" := by
  have h := C3_admin_note_append 3 sampleTicket "accept" " hello " "ts" 0
    (by decide) (by decide)
  exact ⟨h.1, h.2.1.trans (by decide)⟩

/-- Claim C4: every message stored by a successful `chat_send` starts read on
the sender's side and unread on the other: an admin sender yields
`is_read_admin = true`, `is_read_user = false`; a non-admin sender (who must
then be the ticket owner) yields `is_read_user = true`, `is_read_admin =
false`. -/
theorem C4_chat_send_flags (user : User) (ticket : Ticket) (rawMsg : String)
    (now : Int) (table : List TicketMessage) (nextId : Nat)
    (h : (chat_send user ticket rawMsg now table nextId).1 = true) :
    ∃ m : TicketMessage,
      (chat_send user ticket rawMsg now table nextId).2 = table ++ [m] ∧
      m.sender_id = user.id ∧ m.ticket_id = ticket.id ∧
      m.message = pyStrip rawMsg ∧
      (user.role = "admin" → m.is_read_admin = true ∧ m.is_read_user = false) ∧
      (user.role ≠ "admin" →
        ticket.user_id = user.id ∧ m.is_read_user = true ∧
          m.is_read_admin = false) := by
  by_cases hauth : user.role ≠ "admin" ∧ ticket.user_id ≠ user.id
  · exfalso
    simp [chat_send, hauth] at h
  by_cases hmsg : pyStrip rawMsg = ""
  · exfalso
    simp [chat_send, hauth, hmsg] at h
  by_cases hrole : user.role = "admin"
  · refine ⟨⟨nextId, ticket.id, user.id, pyStrip rawMsg, now, true, false⟩,
      ?_, rfl, rfl, rfl, ?_, ?_⟩
    · simp [chat_send, hauth, hmsg, hrole]
    · intro
      exact ⟨rfl, rfl⟩
    · intro hr
      exact absurd hrole hr
  · have howner : ticket.user_id = user.id := by
      by_contra hne
      exact hauth ⟨hrole, hne⟩
    refine ⟨⟨nextId, ticket.id, user.id, pyStrip rawMsg, now, false, true⟩,
      ?_, rfl, rfl, rfl, ?_, ?_⟩
    · simp [chat_send, hauth, hmsg, hrole, howner]
    · intro hr
      exact absurd hr hrole
    · intro
      exact ⟨howner, rfl, rfl⟩

/-- Witness for C4: the sample ticket's owner (user 42, role `student`) sends
`" hi "`; the stored message is read on the user side and unread on the admin
side. -/
theorem C4_witness :
    ∃ m : TicketMessage,
      (chat_send { id := 42, role := "student" } sampleTicket " hi " 5 [] 9).2 =
        [] ++ [m] ∧
      m.sender_id = ({ id := 42, role := "student" } : User).id ∧
      m.ticket_id = sampleTicket.id ∧
      m.message = pyStrip " hi " ∧
      (({ id := 42, role := "student" } : User).role = "admin" →
        m.is_read_admin = true ∧ m.is_read_user = false) ∧
      (({ id := 42, role := "student" } : User).role ≠ "admin" →
        sampleTicket.user_id = ({ id := 42, role := "student" } : User).id ∧
          m.is_read_user = true ∧ m.is_read_admin = false) :=
  C4_chat_send_flags { id := 42, role := "student" } sampleTicket " hi " 5 [] 9
    (by decide)

theorem forall₂_map_self {α β : Type} (R : α → β → Prop) (f : α → β) :
    ∀ l : List α, (∀ x ∈ l, R x (f x)) → List.Forall₂ R l (l.map f) := by
  intro l
  induction l with
  | nil => intro; exact List.Forall₂.nil
  | cons x xs ih =>
    intro h
    exact List.Forall₂.cons (h x (by simp)) (ih fun y hy => h y (by simp [hy]))

theorem markRead_cases (user : User) (m : TicketMessage) :
    (markRead user m).id = m.id ∧ (markRead user m).ticket_id = m.ticket_id ∧
    (markRead user m).sender_id = m.sender_id ∧
    (markRead user m).message = m.message ∧
    (markRead user m).created_at = m.created_at ∧
    (m.sender_id ≠ user.id →
      (user.role = "admin" →
        (markRead user m).is_read_admin = true ∧
        (markRead user m).is_read_user = m.is_read_user) ∧
      (user.role ≠ "admin" →
        (markRead user m).is_read_user = true ∧
        (markRead user m).is_read_admin = m.is_read_admin)) ∧
    (m.sender_id = user.id → markRead user m = m) := by
  by_cases hrole : user.role = "admin"
  · by_cases hs : m.sender_id = user.id
    · simp [markRead, hrole, hs]
    · by_cases hflag : m.is_read_admin = false
      · simp [markRead, hrole, hs, hflag]
      · have : m.is_read_admin = true := by
          revert hflag
          cases m.is_read_admin <;> simp
        simp [markRead, hrole, hs, hflag, this]
  · by_cases hs : m.sender_id = user.id
    · simp [markRead, hrole, hs]
    · by_cases hflag : m.is_read_user = false
      · simp [markRead, hrole, hs, hflag]
      · have : m.is_read_user = true := by
          revert hflag
          cases m.is_read_user <;> simp
        simp [markRead, hrole, hs, hflag, this]

/-- Claim C5: when an authorized reader (an admin or the ticket owner) fetches
`chat_messages`, every message of that ticket sent by someone other than the
reader ends with the reader-side read flag set to true, and no other stored
field of any message — the opposite side's flag, text, sender, timestamp, ids,
or any message of another ticket — is changed. -/
theorem C5_chat_messages_frame (user : User) (ticket : Ticket)
    (table : List TicketMessage)
    (hauth : user.role = "admin" ∨ ticket.user_id = user.id) :
    List.Forall₂ (fun m m' : TicketMessage =>
      m'.id = m.id ∧ m'.ticket_id = m.ticket_id ∧ m'.sender_id = m.sender_id ∧
      m'.message = m.message ∧ m'.created_at = m.created_at ∧
      (m.ticket_id = ticket.id → m.sender_id ≠ user.id →
        (user.role = "admin" →
          m'.is_read_admin = true ∧ m'.is_read_user = m.is_read_user) ∧
        (user.role ≠ "admin" →
          m'.is_read_user = true ∧ m'.is_read_admin = m.is_read_admin)) ∧
      ((m.ticket_id ≠ ticket.id ∨ m.sender_id = user.id) → m' = m))
      table (chat_messages user ticket table).2 := by
  have hcond : ¬(user.role ≠ "admin" ∧ ticket.user_id ≠ user.id) := by
    rcases hauth with h | h <;> simp [h]
  simp only [chat_messages, if_neg hcond]
  apply forall₂_map_self
  intro m _
  by_cases ht : m.ticket_id = ticket.id
  · rw [if_pos ht]
    have hc := markRead_cases user m
    refine ⟨hc.1, hc.2.1, hc.2.2.1, hc.2.2.2.1, hc.2.2.2.2.1, ?_, ?_⟩
    · intro _ hs
      exact hc.2.2.2.2.2.1 hs
    · intro hor
      rcases hor with hor | hor
      · exact absurd ht hor
      · exact hc.2.2.2.2.2.2 hor
  · rw [if_neg ht]
    refine ⟨rfl, rfl, rfl, rfl, rfl, ?_, fun _ => rfl⟩
    intro hti
    exact absurd hti ht

/-- Witness for C5: the admin (id 3) reads the sample ticket's thread holding
one owner-sent message; the frame property holds at this concrete state. -/
theorem C5_witness :
    List.Forall₂ (fun m m' : TicketMessage =>
      m'.id = m.id ∧ m'.ticket_id = m.ticket_id ∧ m'.sender_id = m.sender_id ∧
      m'.message = m.message ∧ m'.created_at = m.created_at ∧
      (m.ticket_id = sampleTicket.id → m.sender_id ≠ sampleAdmin.id →
        (sampleAdmin.role = "admin" →
          m'.is_read_admin = true ∧ m'.is_read_user = m.is_read_user) ∧
        (sampleAdmin.role ≠ "admin" →
          m'.is_read_user = true ∧ m'.is_read_admin = m.is_read_admin)) ∧
      ((m.ticket_id ≠ sampleTicket.id ∨ m.sender_id = sampleAdmin.id) →
        m' = m))
      [sampleMsg] (chat_messages sampleAdmin sampleTicket [sampleMsg]).2 :=
  C5_chat_messages_frame sampleAdmin sampleTicket [sampleMsg] (Or.inl rfl)

/-- Claim C6: admin assignment is set-once.  A successful admin action on an
unassigned ticket assigns the acting admin; once `assigned_admin_id` is
non-null, no admin action ever changes it. -/
theorem C6_assignment (adminId : Nat) (t : Ticket)
    (action rawNote nowStr : String) (now : Int) :
    ((admin_tickets_post adminId t action rawNote nowStr now).2 = true →
      t.assigned_admin_id = none →
      (admin_tickets_post adminId t action rawNote nowStr now).1.assigned_admin_id =
        some adminId) ∧
    (∀ a, t.assigned_admin_id = some a →
      (admin_tickets_post adminId t action rawNote nowStr now).1.assigned_admin_id =
        some a) := by
  by_cases hn : pyStrip rawNote = ""
  · rw [admin_tickets_post_empty_note adminId t action rawNote nowStr now hn]
    exact ⟨fun h => absurd h (by simp), fun a ha => ha⟩
  by_cases hcl : t.status = "closed"
  · rw [admin_tickets_post_closed adminId t action rawNote nowStr now hcl]
    exact ⟨fun h => absurd h (by simp), fun a ha => ha⟩
  rw [admin_tickets_post_success adminId t action rawNote nowStr now hn hcl]
  set t1 := if t.assigned_admin_id = none then
    { t with assigned_admin_id := some adminId } else t with ht1
  have hframe :
      (appendAdminNote (applyAction t1 action now) nowStr
        (pyStrip rawNote)).assigned_admin_id = t1.assigned_admin_id :=
    ((appendAdminNote_frame (applyAction t1 action now) nowStr
      (pyStrip rawNote)).2.2).trans ((applyAction_frame t1 action now).2.2.2.1)
  constructor
  · intro _ hnone
    rw [hframe, ht1, if_pos hnone]
  · intro a ha
    rw [hframe, ht1, if_neg (by simp [ha])]
    exact ha

/-- Witness for C6: accepting the unassigned sample ticket assigns admin 3. -/
theorem C6_witness :
    (admin_tickets_post 3 sampleTicket "accept" "n" "ts" 0).1.assigned_admin_id =
      some 3 :=
  (C6_assignment 3 sampleTicket "accept" "n" "ts" 0).1 (by decide) (by decide)

/-- Claim C7: a POST to `ticket_new` with an empty stripped description
changes nothing; otherwise it creates exactly one ticket with status `open`,
owned by the logged-in user, titled by the first line of the description,
truncated to 120 characters with `"..."` appended when that line exceeds 120
characters (making a 123-character title). -/
theorem C7_ticket_new (uid : Nat) (rawCategory rawDescription : String)
    (now : Int) (tickets : List Ticket) (nextId : Nat) :
    (pyStrip rawDescription = "" →
      ticket_new uid rawCategory rawDescription now tickets nextId =
        (tickets, false)) ∧
    (pyStrip rawDescription ≠ "" →
      ∃ t : Ticket,
        ticket_new uid rawCategory rawDescription now tickets nextId =
          (tickets ++ [t], true) ∧
        t.status = "open" ∧ t.user_id = uid ∧
        t.description = pyStrip rawDescription ∧
        ((firstLine (pyStrip rawDescription)).length ≤ 120 →
          t.title = firstLine (pyStrip rawDescription)) ∧
        (120 < (firstLine (pyStrip rawDescription)).length →
          t.title = pyTake (firstLine (pyStrip rawDescription)) 120 ++ "..." ∧
          t.title.length = 123)) := by
  constructor
  · intro hd
    simp [ticket_new, hd]
  · intro hd
    refine ⟨⟨nextId, uid,
      (if (firstLine (pyStrip rawDescription)).length > 120 then
        pyTake (firstLine (pyStrip rawDescription)) 120 ++ "..."
      else firstLine (pyStrip rawDescription)),
      pyStrip rawDescription,
      (if pyStrip rawCategory = "" then none else some (pyStrip rawCategory)),
      "open", some now, none, none, none⟩, ?_, rfl, rfl, rfl, ?_, ?_⟩
    · simp [ticket_new, hd]
    · intro hlen
      simp [Nat.not_lt.2 hlen]
    · intro hlen
      refine ⟨by simp [hlen], ?_⟩
      simp only [if_pos hlen]
      rw [String.length_append]
      have h1 : (pyTake (firstLine (pyStrip rawDescription)) 120).length = 120 := by
        simp only [pyTake, String.length_mk, List.length_take]
        have : (firstLine (pyStrip rawDescription)).length =
            (firstLine (pyStrip rawDescription)).data.length := rfl
        omega
      rw [h1]
      rfl

/-- Witness for C7: both branches at concrete inputs — an all-whitespace
description creates nothing, and `" hello\nworld "` creates one open ticket
titled `hello`. -/
theorem C7_witness :
    ticket_new 42 "" "  " 5 [] 1 = ([], false) ∧
    ∃ t : Ticket,
      ticket_new 42 "" " hello\nworld " 5 [] 1 = ([] ++ [t], true) ∧
      t.status = "open" ∧ t.user_id = 42 ∧
      t.description = pyStrip " hello\nworld " ∧
      ((firstLine (pyStrip " hello\nworld ")).length ≤ 120 →
        t.title = firstLine (pyStrip " hello\nworld ")) ∧
      (120 < (firstLine (pyStrip " hello\nworld ")).length →
        t.title = pyTake (firstLine (pyStrip " hello\nworld ")) 120 ++ "..." ∧
        t.title.length = 123) :=
  ⟨(C7_ticket_new 42 "" "  " 5 [] 1).1 (by decide),
    (C7_ticket_new 42 "" " hello\nworld " 5 [] 1).2 (by decide)⟩

/-- Claim C8: `closed` is terminal.  Any admin action on a closed ticket is
rejected and the committed row keeps all its prior values (the in-session
auto-assignment is never committed on this path). -/
theorem C8_closed_terminal (adminId : Nat) (t : Ticket)
    (action rawNote nowStr : String) (now : Int) (h : t.status = "closed") :
    admin_tickets_post adminId t action rawNote nowStr now = (t, false) :=
  admin_tickets_post_closed adminId t action rawNote nowStr now h

/-- Witness for C8: closing, accepting or completing the closed sample ticket
leaves it untouched. -/
theorem C8_witness :
    admin_tickets_post 3 { sampleTicket with status := "closed" } "accept"
      "note" "ts" 0 = ({ sampleTicket with status := "closed" }, false) :=
  C8_closed_terminal 3 { sampleTicket with status := "closed" } "accept"
    "note" "ts" 0 rfl

/-- Claim C9: ticket chat is private.  A user who is neither an admin nor the
ticket owner gets an empty list from `chat_messages` and a failure from
`chat_send`, with the message table unchanged in both cases; `chat_send` also
fails and stores nothing when the stripped message body is empty. -/
theorem C9_chat_privacy (user : User) (ticket : Ticket)
    (table : List TicketMessage) (rawMsg : String) (now : Int) (nextId : Nat) :
    (user.role ≠ "admin" → ticket.user_id ≠ user.id →
      chat_messages user ticket table = ([], table) ∧
      chat_send user ticket rawMsg now table nextId = (false, table)) ∧
    (pyStrip rawMsg = "" →
      chat_send user ticket rawMsg now table nextId = (false, table)) := by
  constructor
  · intro h1 h2
    constructor
    · simp [chat_messages, h1, h2]
    · simp [chat_send, h1, h2]
  · intro hm
    by_cases hauth : user.role ≠ "admin" ∧ ticket.user_id ≠ user.id
    · simp [chat_send, hauth]
    · simp [chat_send, hauth, hm]

/-- Witness for C9: user 99 (role `student`, not the owner of the sample
ticket) can neither read nor post, and the owner's all-whitespace message is
rejected. -/
theorem C9_witness :
    (chat_messages { id := 99, role := "student" } sampleTicket [sampleMsg] =
      ([], [sampleMsg]) ∧
      chat_send { id := 99, role := "student" } sampleTicket "x" 5 [sampleMsg]
        2 = (false, [sampleMsg])) ∧
    chat_send { id := 42, role := "student" } sampleTicket "  " 5 [sampleMsg]
      2 = (false, [sampleMsg]) :=
  ⟨(C9_chat_privacy { id := 99, role := "student" } sampleTicket [sampleMsg]
      "x" 5 2).1 (by decide) (by decide),
    (C9_chat_privacy { id := 42, role := "student" } sampleTicket [sampleMsg]
      "  " 5 2).2 (by decide)⟩

theorem applyAction_completed (t : Ticket) (action : String) (now : Int) :
    (applyAction t action now).completed_at = t.completed_at ∨
    (action = "complete" ∧ t.status = "in_progress" ∧ t.completed_at = none ∧
      (applyAction t action now).completed_at = some now ∧
      (applyAction t action now).status = "resolved") := by
  unfold applyAction
  repeat' split <;> try (first
    | (left; rfl)
    | simp_all)

theorem applyAction_complete_sets (t : Ticket) (now : Int)
    (h1 : t.status = "in_progress") (h2 : t.completed_at = none) :
    (applyAction t "complete" now).completed_at = some now ∧
    (applyAction t "complete" now).status = "resolved" := by
  simp [applyAction, h1, h2]

/-- Claim C10: `completed_at` stays null until the first `complete` action
taken while the ticket is `in_progress`, which stamps it with the current
time and moves the status to `resolved`; once non-null it is never
overwritten by any later admin action. -/
theorem C10_completed_at (adminId : Nat) (t : Ticket)
    (action rawNote nowStr : String) (now : Int) :
    (∀ c, t.completed_at = some c →
      (admin_tickets_post adminId t action rawNote nowStr now).1.completed_at =
        some c) ∧
    (t.completed_at = none →
      (admin_tickets_post adminId t action rawNote nowStr now).1.completed_at =
        none ∨
      (action = "complete" ∧ t.status = "in_progress" ∧
        (admin_tickets_post adminId t action rawNote nowStr now).1.completed_at =
          some now ∧
        (admin_tickets_post adminId t action rawNote nowStr now).1.status =
          "resolved")) ∧
    (t.completed_at = none → t.status = "in_progress" → action = "complete" →
      pyStrip rawNote ≠ "" →
      (admin_tickets_post adminId t action rawNote nowStr now).1.completed_at =
        some now ∧
      (admin_tickets_post adminId t action rawNote nowStr now).1.status =
        "resolved") := by
  by_cases hn : pyStrip rawNote = ""
  · rw [admin_tickets_post_empty_note adminId t action rawNote nowStr now hn]
    exact ⟨fun c hc => hc, fun h => Or.inl h, fun _ _ _ hne => absurd hn hne⟩
  by_cases hcl : t.status = "closed"
  · rw [admin_tickets_post_closed adminId t action rawNote nowStr now hcl]
    refine ⟨fun c hc => hc, fun h => Or.inl h, fun _ hip _ _ => ?_⟩
    rw [hip] at hcl
    exact absurd hcl (by decide)
  rw [admin_tickets_post_success adminId t action rawNote nowStr now hn hcl]
  set t1 := if t.assigned_admin_id = none then
    { t with assigned_admin_id := some adminId } else t with ht1
  have hstat : t1.status = t.status := by rw [ht1]; split <;> rfl
  have hcomp : t1.completed_at = t.completed_at := by rw [ht1]; split <;> rfl
  have hfc : ∀ u : Ticket, (appendAdminNote u nowStr (pyStrip rawNote)).completed_at =
      u.completed_at := fun u =>
    (appendAdminNote_frame u nowStr (pyStrip rawNote)).2.1
  have hfs : ∀ u : Ticket, (appendAdminNote u nowStr (pyStrip rawNote)).status =
      u.status := fun u =>
    (appendAdminNote_frame u nowStr (pyStrip rawNote)).1
  refine ⟨?_, ?_, ?_⟩
  · intro c hc
    rcases applyAction_completed t1 action now with h | h
    · rw [hfc, h, hcomp]
      exact hc
    · rw [hcomp, hc] at h
      exact absurd h.2.2.1 (by simp)
  · intro hnone
    rcases applyAction_completed t1 action now with h | h
    · left
      rw [hfc, h, hcomp]
      exact hnone
    · right
      rw [hstat] at h
      exact ⟨h.1, h.2.1, by rw [hfc]; exact h.2.2.2.1, by rw [hfs]; exact h.2.2.2.2⟩
  · intro hnone hip hact _
    subst hact
    have := applyAction_complete_sets t1 now (by rw [hstat]; exact hip)
      (by rw [hcomp]; exact hnone)
    exact ⟨by rw [hfc]; exact this.1, by rw [hfs]; exact this.2⟩

/-- Witness for C10: completing the sample ticket once it is `in_progress`
stamps `completed_at` with the current time and resolves it. -/
theorem C10_witness :
    (admin_tickets_post 3 { sampleTicket with status := "in_progress" }
      "complete" "n" "ts" 99).1.completed_at = some 99 ∧
    (admin_tickets_post 3 { sampleTicket with status := "in_progress" }
      "complete" "n" "ts" 99).1.status = "resolved" :=
  (C10_completed_at 3 { sampleTicket with status := "in_progress" }
    "complete" "n" "ts" 99).2.2 rfl rfl rfl (by decide)

end BSI
